import Mathlib

/-!
Verification of the image-ingestion and analysis pipeline of the
MCP-Process-Image repository (`src/mcp_process_image/`).

The Python source is shallowly embedded: pure helpers become Lean functions,
byte strings become `List Nat`, Python floats appearing as exact decimal
literals or produced by exact operations are modelled as `ℚ`, genuinely
rounding float computations (the resize ratio) are modelled by an exact
integer rendition of IEEE-754 binary64 round-to-nearest-even arithmetic on
dyadic values, and every I/O-performing collaborator (filesystem, HTTP, the
PIL decoder, the OpenAI endpoint, wall clock, uuid generation) is passed in
as an explicit parameter, with fallible calls returning `Except`.
-/

deriving instance DecidableEq for Except

namespace MCPImage

/-! ## Data model (models.py)

Confidence scores are Python floats; the code only ever stores decimal
literals (0.7, 0.8) or values passed through from parsed JSON, so they are
modelled as exact rationals. -/

structure DetectedObject where
  name : String
  confidence : ℚ
deriving DecidableEq

structure ExtractedText where
  content : String
  confidence : ℚ
deriving DecidableEq

/-! ## Base64 (model of Python `base64.b64decode(s, validate=True)`)

`b64decode` with `validate=True` first checks the shape
`[A-Za-z0-9+/]* '='{0,2}` (raising `binascii.Error` otherwise) and then runs
the non-strict `binascii.a2b_base64`, which rejects a data-character count
that is 1 mod 4 and insufficient padding for counts 2 or 3 mod 4, and
ignores superfluous padding after complete quads. -/

def isB64Char (c : Char) : Bool :=
  c.isAlpha || c.isDigit || c == '+' || c == '/'

def b64val (c : Char) : Nat :=
  if c.isUpper then c.toNat - 65
  else if c.isLower then c.toNat - 97 + 26
  else if c.isDigit then c.toNat - 48 + 52
  else if c == '+' then 62
  else 63

/-- Decode groups of base64 sextets into 8-bit bytes; a trailing group of two
sextets yields one byte, of three sextets two bytes. -/
def b64decodeGroups : List Nat → List Nat
  | s1 :: s2 :: s3 :: s4 :: rest =>
      (s1 * 4 + s2 / 16) :: ((s2 % 16) * 16 + s3 / 4) :: ((s3 % 4) * 64 + s4) ::
        b64decodeGroups rest
  | [s1, s2] => [s1 * 4 + s2 / 16]
  | [s1, s2, s3] => [s1 * 4 + s2 / 16, (s2 % 16) * 16 + s3 / 4]
  | _ => []

/-- Model of `base64.b64decode(s, validate=True)`. -/
def b64decode (s : String) : Except String (List Nat) :=
  let dataPart := s.data.takeWhile isB64Char
  let padPart := s.data.drop dataPart.length
  if ¬ (padPart.all (· == '=') ∧ padPart.length ≤ 2) then
    Except.error "Only base64 data is allowed"
  else if dataPart.length % 4 == 1 then
    Except.error "Invalid base64-encoded string"
  else if dataPart.length % 4 == 2 ∧ padPart.length < 2 then
    Except.error "Incorrect padding"
  else if dataPart.length % 4 == 3 ∧ padPart.length < 1 then
    Except.error "Incorrect padding"
  else
    Except.ok (b64decodeGroups (dataPart.map b64val))

/-! ## URL detection (utils.is_url)

`is_url` runs `urllib.parse.urlparse` and requires both `scheme` and
`netloc` to be non-empty.  We model the scheme/netloc extraction of
`urlparse`: a scheme is recognised when the first `:` is preceded by an
alphabetic character followed by characters from the alnum/`+`/`-`/`.` set,
and a netloc is present exactly when the remainder begins with `//`, running
up to the next `/`, `?` or `#`. -/

def isSchemeChar (c : Char) : Bool :=
  c.isAlpha || c.isDigit || c == '+' || c == '-' || c == '.'

def findColon : List Char → Option Nat
  | [] => none
  | c :: cs => if c == ':' then some 0 else (findColon cs).map (· + 1)

/-- Model of utils.is_url. -/
def is_url (source : String) : Bool :=
  let cs := source.data
  match findColon cs with
  | none => false
  | some i =>
    if i == 0 then false
    else
      match cs.take i with
      | [] => false
      | c0 :: restScheme =>
        if c0.isAlpha && restScheme.all isSchemeChar then
          match cs.drop (i + 1) with
          | '/' :: '/' :: afterSlashes =>
            (afterSlashes.takeWhile
              (fun c => c != '/' && c != '?' && c != '#')).length > 0
          | _ => false
        else false

/-! ## Inline base64 detection (utils.is_base64_image) -/

def afterFirstCommaChars : List Char → List Char
  | [] => []
  | c :: cs => if c == ',' then cs else afterFirstCommaChars cs

/-- Everything after the first comma (Python `s.split(",", 1)[1]`). -/
def afterFirstComma (s : String) : String :=
  String.mk (afterFirstCommaChars s.data)

/-- Python `s.startswith(p)`. -/
def pyStartsWith (s p : String) : Bool :=
  p.data.isPrefixOf s.data

/-- Python `c in s` for a single character. -/
def pyContainsChar (s : String) (c : Char) : Bool :=
  s.data.contains c

/-- Model of utils.is_base64_image: a `data:image/` prefix is accepted
outright; otherwise the part after the first comma (or the whole string if
there is none) must strictly base64-decode to a non-empty payload. -/
def is_base64_image (source : String) : Bool :=
  if pyStartsWith source "data:image/" then true
  else
    let s := if pyContainsChar source ',' then afterFirstComma source else source
    match b64decode s with
    | Except.ok decoded => decoded.length > 0
    | Except.error _ => false

/-! ## Source classification (the dispatch in utils.load_image_data)

`load_image_data` chooses the branch by evaluating `is_url` first and
`is_base64_image` second, both pure functions of the string; I/O happens
only inside the chosen branch. -/

inductive SourceType
  | url
  | inlineData
  | filePath
deriving DecidableEq

/-- The classification decision of utils.load_image_data. -/
def classifySource (source : String) : SourceType :=
  if is_url source then SourceType.url
  else if is_base64_image source then SourceType.inlineData
  else SourceType.filePath

/-! ## Inline-data loading (utils.load_image_from_base64) -/

/-- The string `load_image_from_base64` actually decodes: the data-URL prefix
is stripped (split on the first comma only) exclusively when the input starts
with `data:image/`. -/
def strippedB64Input (b : String) : String :=
  if pyStartsWith b "data:image/" then
    if pyContainsChar b ',' then afterFirstComma b else b
  else b

/-- Model of utils.load_image_from_base64.  Any decode exception is wrapped
into an `ImageLoadError` (the spec's `SourceLoadError`). -/
def load_image_from_base64 (b : String) : Except String (List Nat) :=
  match b64decode (strippedB64Input b) with
  | Except.ok bytes => Except.ok bytes
  | Except.error e =>
      Except.error ("Failed to decode base64 image data: " ++ e)

/-! ## File paths (utils.sanitize_file_path, utils.load_image_from_file)

Paths are manipulated as `List Char`.  `os.path.normpath` (POSIX flavour) is
embedded faithfully: split on `/`, drop empty and `.` components, resolve
`..` lexically (keeping leading `..` components of relative paths), and
re-join with the preserved number of leading slashes. -/

def splitOnChar (p : Char → Bool) : List Char → List (List Char)
  | [] => [[]]
  | c :: cs =>
    let rest := splitOnChar p cs
    if p c then [] :: rest
    else
      match rest with
      | r :: rs => (c :: r) :: rs
      | [] => [[c]]

/-- Join components with `/` separators. -/
def joinComps : List (List Char) → List Char
  | [] => []
  | [c] => c
  | c :: cs => c ++ '/' :: joinComps cs

/-- The component loop of `posixpath.normpath`; `acc` holds the accepted
components in reverse. -/
def normpathLoop (isAbs : Bool) (acc : List (List Char)) :
    List (List Char) → List (List Char)
  | [] => acc.reverse
  | comp :: rest =>
    if comp = [] ∨ comp = ['.'] then normpathLoop isAbs acc rest
    else if comp ≠ ['.', '.'] ∨ (¬ isAbs ∧ acc = []) ∨ acc.head? = some ['.', '.'] then
      normpathLoop isAbs (comp :: acc) rest
    else
      match acc with
      | [] => normpathLoop isAbs [] rest
      | _ :: accRest => normpathLoop isAbs accRest rest

/-- The component list that remains after normalization. -/
def normComps (path : List Char) : List (List Char) :=
  normpathLoop (path.head? = some '/') [] (splitOnChar (· == '/') path)

/-- Number of leading slashes preserved by `posixpath.normpath` (two leading
slashes are kept as two, one or three-or-more as one). -/
def leadSlashes (path : List Char) : Nat :=
  match path with
  | '/' :: '/' :: '/' :: _ => 1
  | '/' :: '/' :: _ => 2
  | '/' :: _ => 1
  | _ => 0

/-- Model of `os.path.normpath` (POSIX). -/
def normpath (path : List Char) : List Char :=
  if path = [] then ['.']
  else
    let res := List.replicate (leadSlashes path) '/' ++ joinComps (normComps path)
    if res = [] then ['.'] else res

/-- Substring test (Python `sub in s`). -/
def hasSub (sub : List Char) : List Char → Bool
  | [] => sub.isEmpty
  | c :: cs => sub.isPrefixOf (c :: cs) || hasSub sub cs

/-- The two-character sequence checked by sanitize_file_path. -/
def dotdot : List Char := ['.', '.']

/-- A filesystem entry as seen through `Path.exists` / `Path.is_file` /
`Path.read_bytes`. -/
inductive FsEntry
  | file (content : List Nat)
  | dir
  | absent
deriving DecidableEq

/-- Errors raised inside sanitize_file_path: `ImageValidationError` for the
traversal check, `ImageLoadError` for missing or non-regular files. -/
inductive PathError
  | validation (msg : List Char)
  | load (msg : List Char)
deriving DecidableEq

def PathError.msg : PathError → List Char
  | PathError.validation m => m
  | PathError.load m => m

/-- Model of utils.sanitize_file_path; the filesystem is an explicit
parameter consulted only for the existence and regular-file checks, which
run after the traversal check. -/
def sanitize_file_path (fs : List Char → FsEntry) (filePath : List Char) :
    Except PathError (List Char) :=
  let cleanPath := normpath filePath
  if hasSub dotdot cleanPath then
    Except.error (PathError.validation ("Invalid file path: ".data ++ filePath))
  else
    match fs cleanPath with
    | FsEntry.absent => Except.error (PathError.load ("File not found: ".data ++ filePath))
    | FsEntry.dir => Except.error (PathError.load ("Path is not a file: ".data ++ filePath))
    | FsEntry.file _ => Except.ok cleanPath

/-- Model of utils.load_image_from_file: every failure inside (including the
validation error from sanitize_file_path) is wrapped into an
`ImageLoadError` built from the inner exception's message. -/
def load_image_from_file (fs : List Char → FsEntry) (filePath : List Char) :
    Except (List Char) (List Nat) :=
  match sanitize_file_path fs filePath with
  | Except.error e =>
      Except.error ("Failed to load image from file: ".data ++ e.msg)
  | Except.ok cleanPath =>
    match fs cleanPath with
    | FsEntry.file content => Except.ok content
    | _ =>
        Except.error ("Failed to load image from file: ".data ++
          "File not found: ".data ++ filePath)

/-! ## IEEE-754 binary64 arithmetic

The resize branch of utils.validate_and_process_image computes
`ratio = min(2048/width, 2048/height)` and `int(width*ratio)`,
`int(height*ratio)` in Python floats.  Each of the two rounding operations
(the division, then the multiplication by the exactly-representable integer
dimension) is modelled exactly: positive binary64 values are represented as
dyadics `(m, e)` of value `m * 2^e`, and `flFrac n d` rounds the exact
fraction `n/d` to 53 significant bits with round-half-to-even, precisely
the binary64 result of the corresponding float operation (the dimensions
involved are far below 2^53, so their float conversion is exact, and `min`
and `int`-truncation are exact as well). -/

def bitLenAux : ℕ → ℕ → ℕ
  | 0, _ => 0
  | fuel + 1, n => if n = 0 then 0 else bitLenAux fuel (n / 2) + 1

/-- Number of binary digits of `n` (`bitLen n = Nat.log2 n + 1` for
positive `n`), defined with structural fuel recursion. -/
def bitLen (n : ℕ) : ℕ := bitLenAux n n

/-- Whether `n / d ≥ 2 ^ e` (for positive `n`, `d`). -/
def fracGe (n d : ℕ) (e : ℤ) : Bool :=
  if 0 ≤ e then d * 2 ^ e.toNat ≤ n else d ≤ n * 2 ^ (-e).toNat

/-- Round the positive fraction `n / d` to the nearest binary64 value
(round half to even), returned as a dyadic `(m, e)` of value `m * 2^e`. -/
def flFrac (n d : ℕ) : ℕ × ℤ :=
  if n = 0 ∨ d = 0 then (0, 0)
  else
    let e0 : ℤ := (bitLen n : ℤ) - (bitLen d : ℤ)
    let e : ℤ := if fracGe n d e0 then e0 else e0 - 1
    let s : ℤ := 52 - e
    let nn := if 0 ≤ s then n * 2 ^ s.toNat else n
    let dd := if 0 ≤ s then d else d * 2 ^ (-s).toNat
    let m0 := nn / dd
    let r := nn % dd
    let m :=
      if 2 * r < dd then m0
      else if 2 * r > dd then m0 + 1
      else if m0 % 2 = 0 then m0 else m0 + 1
    (m, e - 52)

/-- Comparison of two non-negative dyadic values. -/
def dyLe (x y : ℕ × ℤ) : Bool :=
  let s := min x.2 y.2
  x.1 * 2 ^ (x.2 - s).toNat ≤ y.1 * 2 ^ (y.2 - s).toNat

/-- Python `min` on two floats (the first argument on ties). -/
def dyMin (x y : ℕ × ℤ) : ℕ × ℤ := if dyLe x y then x else y

/-- The binary64 product of the exactly-representable natural `w` with the
dyadic `x`: the exact product re-rounded to 53 bits. -/
def flMulNat (w : ℕ) (x : ℕ × ℤ) : ℕ × ℤ :=
  if 0 ≤ x.2 then flFrac (w * x.1 * 2 ^ x.2.toNat) 1
  else flFrac (w * x.1) (2 ^ (-x.2).toNat)

/-- Python `int()` of a non-negative dyadic (truncation = floor). -/
def dyFloor (x : ℕ × ℤ) : ℕ :=
  if 0 ≤ x.2 then x.1 * 2 ^ x.2.toNat else x.1 / 2 ^ (-x.2).toNat

/-! ## Validation and normalization (utils.validate_and_process_image) -/

/-- A decoded bitmap as PIL reports it: dimensions, the optional format tag,
and the pixel mode. -/
structure Bitmap where
  width : Nat
  height : Nat
  format : Option String
  mode : String
deriving DecidableEq

/-- The metadata dictionary assembled by validate_and_process_image.  The
`resized` and `original_size` keys exist only after a resize; they are
modelled as a Bool defaulting to false and an Option. -/
structure ImageMeta where
  width : Nat
  height : Nat
  format : String
  mode : String
  size_bytes : Nat
  resized : Bool
  original_size : Option (Nat × Nat)
deriving DecidableEq

/-- Which `ImageValidationError` the pipeline raises: the size gate, the
format gate, or a wrapped unexpected decode exception. -/
inductive ValidationFailure
  | size (sizeBytes : Nat) (maxMb : ℚ)
  | format (fmt : String)
  | decodeFailure (msg : String)
deriving DecidableEq

/-- Model of utils.validate_image_size: fails iff `len(bytes)/2^20` strictly
exceeds the limit.  The Python float division by 2^20 is exact for every
byte length below 2^53, so the rational comparison is faithful. -/
def validate_image_size (sizeBytes : Nat) (maxSizeMb : ℚ) : Bool :=
  (sizeBytes : ℚ) / (1024 * 1024) > maxSizeMb

/-- The supported-format set of utils.validate_image_format, spelled exactly
as in the source (note the mixed-case `WebP`). -/
def supported_formats : List String :=
  ["JPEG", "PNG", "WebP", "GIF", "BMP", "TIFF"]

def validate_image_format (fmt : String) : Bool :=
  supported_formats.contains fmt

def bytesStartWith (data sig : List Nat) : Bool :=
  sig.isPrefixOf data

def bytesHaveSub (sub : List Nat) : List Nat → Bool
  | [] => sub.isEmpty
  | b :: bs => sub.isPrefixOf (b :: bs) || bytesHaveSub sub bs

/-- Magic-byte sniffing used when PIL reports no format tag, in source
order: PNG, JPEG, RIFF+WEBP, GIF8, defaulting to PNG. -/
def sniffFormat (imageData : List Nat) : String :=
  if bytesStartWith imageData [0x89, 0x50, 0x4E, 0x47] then "PNG"
  else if bytesStartWith imageData [0xFF, 0xD8, 0xFF] then "JPEG"
  else if bytesStartWith imageData [0x52, 0x49, 0x46, 0x46] ∧
      bytesHaveSub [0x57, 0x45, 0x42, 0x50] (imageData.take 12) then "WEBP"
  else if bytesStartWith imageData [0x47, 0x49, 0x46, 0x38] then "GIF"
  else "PNG"

def MAX_DIMENSION : Nat := 2048

/-- The Python float computation of the resize target:
`ratio = min(2048/width, 2048/height)`, then `int(width*ratio)` and
`int(height*ratio)`, with every float operation rounded to binary64. -/
def resizedDims (w h : Nat) : Nat × Nat :=
  let ratio := dyMin (flFrac 2048 w) (flFrac 2048 h)
  (dyFloor (flMulNat w ratio), dyFloor (flMulNat h ratio))

/-- Model of utils.validate_and_process_image.  The PIL decoder is an
explicit parameter; a decoder exception surfaces as
`ValidationFailure.decodeFailure` (the code wraps unexpected exceptions into
`ImageValidationError`).  In the no-resize branch the returned bitmap keeps
the (possibly sniffer-assigned) format tag, while `Image.resize` returns a
fresh image whose format attribute is `None`; the metadata keeps `fmt`
either way. -/
def validate_and_process_image
    (decodeImg : List Nat → Except String Bitmap)
    (imageData : List Nat) (maxSizeMb : ℚ) (resizeIfNeeded : Bool) :
    Except ValidationFailure (Bitmap × ImageMeta) :=
  if validate_image_size imageData.length maxSizeMb then
    Except.error (ValidationFailure.size imageData.length maxSizeMb)
  else
    match decodeImg imageData with
    | Except.error msg => Except.error (ValidationFailure.decodeFailure msg)
    | Except.ok img =>
      let fmt :=
        match img.format with
        | some f => f
        | none => sniffFormat imageData
      if ¬ validate_image_format fmt then
        Except.error (ValidationFailure.format fmt)
      else
        let md : ImageMeta :=
          { width := img.width, height := img.height, format := fmt,
            mode := img.mode, size_bytes := imageData.length,
            resized := false, original_size := none }
        if resizeIfNeeded ∧ (img.width > MAX_DIMENSION ∨ img.height > MAX_DIMENSION) then
          let dims := resizedDims img.width img.height
          Except.ok
            ({ img with width := dims.1, height := dims.2, format := none },
             { md with width := dims.1, height := dims.2,
                       resized := true,
                       original_size := some (img.width, img.height) })
        else
          Except.ok ({ img with format := some fmt }, md)

/-! ## Response coercion (openai_client.extract_text / detect_objects)

The remote response is free text; `json.loads` is the Python standard
library, so the coercion is modelled over the outcome of the parse: a JSON
value on success, an error on `json.JSONDecodeError`. -/

inductive Json
  | null
  | bool (b : Bool)
  | num (q : ℚ)
  | str (s : String)
  | arr (elems : List Json)
  | obj (fields : List (String × Json))

/-- Dictionary lookup on a parsed JSON object (`json.loads` keeps the last
value for a duplicated key). -/
def jsonLookup (fields : List (String × Json)) (key : String) : Option Json :=
  ((fields.filter (fun p => p.1 == key)).getLast?).map (fun p => p.2)

/-- The per-element mapping of detect_objects: an object with a `name` key
becomes a record with `confidence` defaulting to 0.8, a bare string becomes
a record at 0.8, anything else is skipped.  A `name` or `confidence` value
of the wrong JSON type would make the pydantic constructor raise (an error
envelope upstream); that path is outside the claims and not modelled. -/
def objectFromItem : Json → Option DetectedObject
  | Json.obj fields =>
    match jsonLookup fields "name" with
    | some (Json.str n) =>
      some { name := n,
             confidence :=
               match jsonLookup fields "confidence" with
               | some (Json.num c) => c
               | _ => 8 / 10 }
    | _ => none
  | Json.str s => some { name := s, confidence := 8 / 10 }
  | _ => none

/-- The per-element mapping of extract_text (same shape, key `content`). -/
def textFromItem : Json → Option ExtractedText
  | Json.obj fields =>
    match jsonLookup fields "content" with
    | some (Json.str c) =>
      some { content := c,
             confidence :=
               match jsonLookup fields "confidence" with
               | some (Json.num q) => q
               | _ => 8 / 10 }
    | _ => none
  | Json.str s => some { content := s, confidence := 8 / 10 }
  | _ => none

/-! ### The text-heuristic object extractor
(openai_client._extract_objects_from_text) -/

/-- Python `\s` (ASCII portion), which also drives `str.strip`. -/
def isPyWs (c : Char) : Bool :=
  c == ' ' || c == '\t' || c == '\n' || c == '\r' || c == '\x0b' || c == '\x0c'

def stripWs (s : List Char) : List Char :=
  ((s.dropWhile isPyWs).reverse.dropWhile isPyWs).reverse

def lowerChars (s : List Char) : List Char := s.map Char.toLower

/-- The anchored, case-insensitive boilerplate alternation of the first
`re.sub`, in source order. -/
def boilerplateLeadIns : List (List Char) :=
  ["I can see".data, "In this image".data, "The image shows".data,
   "This image contains".data]

def stripLeadInAux : List (List Char) → List Char → List Char
  | [], s => s
  | p :: ps, s =>
    if (lowerChars p).isPrefixOf (lowerChars s) then s.drop p.length
    else stripLeadInAux ps s

/-- Removal of a leading boilerplate phrase (case-insensitive, first
matching alternative). -/
def stripLeadIn (s : List Char) : List Char :=
  stripLeadInAux boilerplateLeadIns s

def isObjDelim (c : Char) : Bool :=
  c == ',' || c == ';' || c == '.' || c == '\n'

/-- The article/quantifier alternation of the second `re.sub`, in source
order. -/
def articleWords : List (List Char) :=
  ["a".data, "an".data, "the".data, "some".data, "several".data,
   "many".data, "few".data]

/-- One alternative of `^(a|an|...)\s+`: the word must match
case-insensitively and be followed by at least one whitespace character; the
greedy `\s+` removes all of the following whitespace. -/
def headIsWs : List Char → Bool
  | c :: _ => isPyWs c
  | [] => false

def tryArticle (art s : List Char) : Option (List Char) :=
  if lowerChars (s.take art.length) == lowerChars art &&
      headIsWs (s.drop art.length) then
    some ((s.drop art.length).dropWhile isPyWs)
  else none

def stripArticleAux : List (List Char) → List Char → List Char
  | [], s => s
  | a :: as, s =>
    match tryArticle a s with
    | some r => r
    | none => stripArticleAux as s

def stripArticle (s : List Char) : List Char :=
  stripArticleAux articleWords s

/-- The loop body of _extract_objects_from_text for one fragment: strip
whitespace, keep it when longer than 2 characters, strip a leading article,
keep the result when non-empty at confidence 0.7. -/
def heuristicFragment (f0 : List Char) : Option DetectedObject :=
  let f := stripWs f0
  if f.length > 2 then
    let f2 := stripArticle f
    if f2.length > 0 then
      some { name := String.mk f2, confidence := 7 / 10 }
    else none
  else none

/-- Model of openai_client._extract_objects_from_text: strip the boilerplate
lead-in, split on comma/semicolon/period/newline, apply the per-fragment
cleanup, and keep the first 10 results. -/
def extract_objects_from_text (text : String) : List DetectedObject :=
  ((splitOnChar isObjDelim (stripLeadIn text.data)).filterMap
    heuristicFragment).take 10

/-- Model of the coercion in openai_client.detect_objects: strict JSON tier
when the parse yields a list, heuristic text extraction when the parse fails
or yields a non-list. -/
def detect_objects_coerce (parsed : Except String Json) (response : String) :
    List DetectedObject :=
  match parsed with
  | Except.ok (Json.arr elems) => elems.filterMap objectFromItem
  | Except.ok _ => extract_objects_from_text response
  | Except.error _ => extract_objects_from_text response

/-- Model of the coercion in openai_client.extract_text: strict JSON tier
when the parse yields a list; when the parse fails or yields a non-list the
whole response becomes a single record at confidence 0.8 (there is no
heuristic fallback on this path). -/
def extract_text_coerce (parsed : Except String Json) (response : String) :
    List ExtractedText :=
  match parsed with
  | Except.ok (Json.arr elems) => elems.filterMap textFromItem
  | Except.ok _ => [{ content := response, confidence := 8 / 10 }]
  | Except.error _ => [{ content := response, confidence := 8 / 10 }]

/-! ## Envelopes and orchestration (models.py, api_clients/base.py, server.py)

Wall-clock readings, uuid generation and every remote interaction are
external; they enter the models as parameters. -/

/-- Metadata as stamped into an analysis result
(models.ImageMetadata). -/
structure StampedMetadata where
  width : Nat
  height : Nat
  format : String
  size_bytes : Nat
  processing_time : ℚ
  api_provider : String
deriving DecidableEq

/-- Analysis payload (models.ImageAnalysis, the fields the core pipeline
populates). -/
structure ImageAnalysis where
  description : Option String
  objects : List DetectedObject
  text : List ExtractedText
  metadata : Option StampedMetadata
deriving DecidableEq

/-- The per-image envelope (models.ProcessingResult). -/
structure ProcessingResult where
  success : Bool
  provider : String
  analysis : Option ImageAnalysis
  error : Option String
  request_id : String
  timestamp : ℚ
deriving DecidableEq

/-- The batch envelope (models.BatchProcessingResult). -/
structure BatchProcessingResult where
  total_images : Nat
  successful : Nat
  failed : Nat
  results : List ProcessingResult
  processing_time : ℚ
deriving DecidableEq

/-- Model of BaseImageClient.process_image.  The entire try-block —
metadata construction, the analyze_image call and the metadata stamping —
either yields an analysis or raises; `analyzeOutcome` carries that outcome.
`procTime` and `ts` are the wall-clock readings, `requestId` the generated
uuid. -/
def base_process_image (provider : String)
    (mdWidth mdHeight : Nat) (mdFormat : String) (mdSizeBytes : Nat)
    (analyzeOutcome : Except String ImageAnalysis)
    (requestId : String) (procTime ts : ℚ) : ProcessingResult :=
  let stamped : StampedMetadata :=
    { width := mdWidth, height := mdHeight, format := mdFormat,
      size_bytes := mdSizeBytes, processing_time := procTime,
      api_provider := provider }
  match analyzeOutcome with
  | Except.ok analysis =>
    { success := true, provider := provider,
      analysis := some { analysis with metadata := some stamped },
      error := none, request_id := requestId, timestamp := ts }
  | Except.error e =>
    { success := false, provider := provider, analysis := none,
      error := some e, request_id := requestId, timestamp := ts }

/-- Model of OpenAIImageClient.analyze_with_custom_prompt: validation,
encoding and the remote call either produce the response text or raise. -/
def analyze_with_custom_prompt (provider : String)
    (mdWidth mdHeight : Nat) (mdFormat : String) (mdSizeBytes : Nat)
    (callOutcome : Except String String)
    (requestId : String) (procTime ts : ℚ) : ProcessingResult :=
  let stamped : StampedMetadata :=
    { width := mdWidth, height := mdHeight, format := mdFormat,
      size_bytes := mdSizeBytes, processing_time := procTime,
      api_provider := provider }
  match callOutcome with
  | Except.ok response =>
    { success := true, provider := provider,
      analysis := some
        { description := some response, objects := [], text := [],
          metadata := some stamped },
      error := none, request_id := requestId, timestamp := ts }
  | Except.error e =>
    { success := false, provider := provider, analysis := none,
      error := some e, request_id := requestId, timestamp := ts }

/-- The `APIProvider` enum values (models.APIProvider). -/
def validProviders : List String := ["openai", "anthropic", "google", "azure"]

/-- Model of the `APIProvider(value)` enum constructor: the member for a
valid value string, `ValueError` otherwise (Python message included). -/
def apiProviderOfString (s : String) : Except String String :=
  if validProviders.contains s then Except.ok s
  else Except.error ("'" ++ s ++ "' is not a valid APIProvider")

/-- Python `api_provider or config.default_api_provider.value`: the default
is used when the argument is absent or the empty string (falsy). -/
def pyOr (arg : Option String) (dflt : String) : String :=
  match arg with
  | some s => if s = "" then dflt else s
  | none => dflt

/-- One of server.process_image's except handlers: it re-evaluates
`APIProvider(api_provider or config.default_api_provider.value)` to fill the
`provider` field, so when that string is invalid the handler itself raises
the same ValueError instead of returning an envelope. -/
def exceptHandler (apiProviderArg : Option String) (defaultProvider : String)
    (msg requestId : String) (ts : ℚ) : Except String ProcessingResult :=
  match apiProviderOfString (pyOr apiProviderArg defaultProvider) with
  | Except.error e2 => Except.error e2
  | Except.ok p =>
    Except.ok
      { success := false, provider := p, analysis := none,
        error := some msg, request_id := requestId, timestamp := ts }

/-- Model of the server.process_image tool.  Stage outcomes in order:
provider parsing (modelled from the argument and config default),
analysis-type parsing plus API-key lookup (`analysisAndKey`, ValueErrors),
source loading plus validation (`loadAndValidate`,
ImageLoadError/ImageValidationError), then client construction and call
(`clientOutcome`; `ok` carries the envelope the client built internally).
An `ImageLoadError`/`ImageValidationError` becomes an envelope carrying the
message verbatim, any other exception one prefixed `Unexpected error: ` —
except that both handlers re-run the provider parse, so an invalid provider
string escapes as an uncaught ValueError (`Except.error`): the caller then
receives no envelope. -/
def server_process_image
    (apiProviderArg : Option String) (defaultProvider : String)
    (analysisAndKey : Except String Unit)
    (loadAndValidate : Except String Unit)
    (clientOutcome : Except String ProcessingResult)
    (requestId : String) (ts : ℚ) : Except String ProcessingResult :=
  match apiProviderOfString (pyOr apiProviderArg defaultProvider) with
  | Except.error e =>
    exceptHandler apiProviderArg defaultProvider ("Unexpected error: " ++ e)
      requestId ts
  | Except.ok _ =>
    match analysisAndKey with
    | Except.error e =>
      exceptHandler apiProviderArg defaultProvider ("Unexpected error: " ++ e)
        requestId ts
    | Except.ok _ =>
      match loadAndValidate with
      | Except.error e =>
        exceptHandler apiProviderArg defaultProvider e requestId ts
      | Except.ok _ =>
        match clientOutcome with
        | Except.error e =>
          exceptHandler apiProviderArg defaultProvider
            ("Unexpected error: " ++ e) requestId ts
        | Except.ok r => Except.ok r

/-! ### Batch orchestration (server.analyze_image_batch) -/

/-- The envelope appended when a per-item exception escapes the inner try of
the batch loop. -/
def batchErrorEnvelope (provider e requestId : String) (ts : ℚ) :
    ProcessingResult :=
  { success := false, provider := provider, analysis := none,
    error := some e, request_id := requestId, timestamp := ts }

/-- What one loop iteration appends for item `i`: the client envelope when
processing completes, or a fresh error envelope when it raises.  `oracle`
gives each item's outcome (its I/O is external); `errId`/`errTs` are the
uuid and clock readings of the exception path. -/
def batchStep (provider : String)
    (oracle : Nat → String → Except String ProcessingResult)
    (errId : Nat → String) (errTs : Nat → ℚ)
    (i : Nat) (src : String) : ProcessingResult :=
  match oracle i src with
  | Except.ok r => r
  | Except.error e => batchErrorEnvelope provider e (errId i) (errTs i)

/-- The batch loop: appends every item's envelope and advances the
`successful`/`failed` counters exactly as the source does. -/
def batchLoop (provider : String)
    (oracle : Nat → String → Except String ProcessingResult)
    (errId : Nat → String) (errTs : Nat → ℚ) :
    List (Nat × String) → List ProcessingResult → Nat → Nat →
      List ProcessingResult × Nat × Nat
  | [], results, succ, fail => (results, succ, fail)
  | (i, src) :: rest, results, succ, fail =>
    match oracle i src with
    | Except.ok r =>
      if r.success then
        batchLoop provider oracle errId errTs rest (results ++ [r]) (succ + 1) fail
      else
        batchLoop provider oracle errId errTs rest (results ++ [r]) succ (fail + 1)
    | Except.error e =>
      batchLoop provider oracle errId errTs rest
        (results ++ [batchErrorEnvelope provider e (errId i) (errTs i)])
        succ (fail + 1)

/-- Model of the server.analyze_image_batch tool.  `setup` is the up-front
provider/analysis-type/API-key resolution: when it raises, the outer handler
returns an envelope with `total_images = N`, `failed = N` and an empty
results list; otherwise the loop runs over the enumerated sources. -/
def analyze_image_batch
    (setup : Except String Unit)
    (oracle : Nat → String → Except String ProcessingResult)
    (errId : Nat → String) (errTs : Nat → ℚ)
    (provider : String) (sources : List String) (elapsed : ℚ) :
    BatchProcessingResult :=
  match setup with
  | Except.error _ =>
    { total_images := sources.length, successful := 0,
      failed := sources.length, results := [], processing_time := elapsed }
  | Except.ok _ =>
    let out := batchLoop provider oracle errId errTs sources.enum [] 0 0
    { total_images := sources.length, successful := out.2.1,
      failed := out.2.2, results := out.1, processing_time := elapsed }

/-! ## Helper lemmas -/

theorem drop_length_takeWhile (p : Char → Bool) (l : List Char) :
    l.drop (l.takeWhile p).length = l.dropWhile p := by
  induction l with
  | nil => rfl
  | cons c cs ih =>
    by_cases h : p c = true
    · simpa [List.takeWhile, List.dropWhile, h] using ih
    · simp [List.takeWhile, List.dropWhile, h]

theorem hasSub_append_right (sub t pre : List Char) (h : hasSub sub t = true) :
    hasSub sub (pre ++ t) = true := by
  induction pre with
  | nil => simpa using h
  | cons c cs ih =>
    simp only [List.cons_append, hasSub, Bool.or_eq_true]
    exact Or.inr ih

theorem hasSub_self_append (sub t : List Char) : hasSub sub (sub ++ t) = true := by
  cases sub with
  | nil => cases t <;> simp [hasSub, List.isEmpty]
  | cons c cs =>
    simp only [List.cons_append, hasSub, Bool.or_eq_true]
    exact Or.inl (List.isPrefixOf_iff_prefix.mpr
      (List.prefix_append (c :: cs) t))

theorem hasSub_ne_nil {sub s : List Char} (h : hasSub sub s = true)
    (hs : sub ≠ []) : s ≠ [] := by
  intro h0
  subst h0
  simp only [hasSub, List.isEmpty_iff] at h
  exact hs h

theorem mem_joinComps_hasSub {c : List Char} {l : List (List Char)}
    (h : c ∈ l) : hasSub c (joinComps l) = true := by
  induction l with
  | nil => cases h
  | cons x xs ih =>
    rcases List.mem_cons.mp h with h1 | h2
    · subst h1
      cases xs with
      | nil => simpa using hasSub_self_append c []
      | cons y ys => exact hasSub_self_append c _
    · cases xs with
      | nil => cases h2
      | cons y ys =>
        have hj : hasSub c (joinComps (y :: ys)) = true := ih h2
        have := hasSub_append_right c (joinComps (y :: ys)) (x ++ ['/']) hj
        simpa [joinComps, List.append_assoc] using this

theorem hasSub_dotdot_normpath {p : List Char} (h : dotdot ∈ normComps p) :
    hasSub dotdot (normpath p) = true := by
  have hp : p ≠ [] := by
    intro h0
    subst h0
    simp [normComps, splitOnChar, normpathLoop] at h
  have hj : hasSub dotdot (joinComps (normComps p)) = true := mem_joinComps_hasSub h
  have hres : hasSub dotdot
      (List.replicate (leadSlashes p) '/' ++ joinComps (normComps p)) = true :=
    hasSub_append_right _ _ _ hj
  have hne : List.replicate (leadSlashes p) '/' ++ joinComps (normComps p) ≠ [] :=
    hasSub_ne_nil hres (by decide)
  simpa [normpath, hp, hne] using hres

/-! ## Claim theorems -/

/-- C4: for every input string, source classification selects exactly one of
Url, InlineData, FilePath, in this order: the URL check first, then the
inline-data check (`data:image/` prefix, or valid non-empty base64 after
splitting on the first comma), else file path; the decision is the pure
function `classifySource` of the string alone. -/
theorem classifySource_spec (s : String) :
    (classifySource s = SourceType.url ↔ is_url s = true) ∧
    (classifySource s = SourceType.inlineData ↔
      (is_url s = false ∧ is_base64_image s = true)) ∧
    (classifySource s = SourceType.filePath ↔
      (is_url s = false ∧ is_base64_image s = false)) ∧
    (is_base64_image s = true ↔
      (pyStartsWith s "data:image/" = true ∨
        ∃ d, b64decode (if pyContainsChar s ',' then afterFirstComma s else s) =
            Except.ok d ∧ 0 < d.length)) := by
  refine ⟨?_, ?_, ?_, ?_⟩
  · cases hu : is_url s <;> cases hb : is_base64_image s <;>
      simp [classifySource, hu, hb]
  · cases hu : is_url s <;> cases hb : is_base64_image s <;>
      simp [classifySource, hu, hb]
  · cases hu : is_url s <;> cases hb : is_base64_image s <;>
      simp [classifySource, hu, hb]
  · cases hpre : pyStartsWith s "data:image/" with
    | true => simp [is_base64_image, hpre]
    | false =>
      cases hdec : b64decode (if pyContainsChar s ',' then afterFirstComma s else s) with
      | ok d =>
        simp only [is_base64_image, hpre, Bool.false_eq_true, if_false, hdec,
          decide_eq_true_eq]
        constructor
        · intro hlen
          exact Or.inr ⟨d, rfl, hlen⟩
        · rintro (h0 | ⟨d2, hd2, hlen⟩)
          · cases h0
          · cases hd2
            exact hlen
      | error e =>
        simp [is_base64_image, hpre, hdec]

/-- C4 witness: the classification at three concrete sources. -/
theorem classifySource_spec_witness :
    classifySource "https://example.com/image.jpg" = SourceType.url ∧
    classifySource "data:image/png;base64,iVBORw0KGgo=" = SourceType.inlineData ∧
    classifySource "/tmp/photo.jpg" = SourceType.filePath :=
  ⟨(classifySource_spec "https://example.com/image.jpg").1.mpr (by decide),
   (classifySource_spec "data:image/png;base64,iVBORw0KGgo=").2.1.mpr (by decide),
   (classifySource_spec "/tmp/photo.jpg").2.2.1.mpr (by decide)⟩

/-- C8 counterexample: the inline-data input `data:image/png;base64,` has an
empty decoded payload, yet the resolver returns empty bytes successfully
instead of failing with a SourceLoadError. -/
theorem empty_payload_not_rejected :
    load_image_from_base64 "data:image/png;base64," = Except.ok [] := by decide

/-- C8 (amended): the inline-data loader strips the data-URL prefix by
splitting on the first comma only when the `data:image/` prefix is present,
propagates a strictly validated base64 decode, wraps any decode error
(including invalid-alphabet input) into a SourceLoadError, and returns an
empty decoded payload as empty bytes rather than an error. -/
theorem load_image_from_base64_spec (b : String) :
    (∀ d, b64decode (strippedB64Input b) = Except.ok d →
      load_image_from_base64 b = Except.ok d) ∧
    (∀ e, b64decode (strippedB64Input b) = Except.error e →
      load_image_from_base64 b =
        Except.error ("Failed to decode base64 image data: " ++ e)) ∧
    (pyStartsWith b "data:image/" = false → strippedB64Input b = b) ∧
    (∀ c, c ∈ (strippedB64Input b).data → isB64Char c = false → c ≠ '=' →
      load_image_from_base64 b =
        Except.error "Failed to decode base64 image data: Only base64 data is allowed") := by
  refine ⟨?_, ?_, ?_, ?_⟩
  · intro d hd
    simp [load_image_from_base64, hd]
  · intro e he
    simp [load_image_from_base64, he]
  · intro hpre
    simp [strippedB64Input, hpre]
  · intro c hc hb64 heq
    set s := (strippedB64Input b).data with hs
    have hdecomp : s.takeWhile isB64Char ++ s.dropWhile isB64Char = s := by
      rw [List.takeWhile_append_dropWhile]
    have hmem : c ∈ s.takeWhile isB64Char ++ s.dropWhile isB64Char := by
      rw [hdecomp]; exact hc
    have hdropEq : s.drop (s.takeWhile isB64Char).length = s.dropWhile isB64Char :=
      drop_length_takeWhile isB64Char s
    have hpad : c ∈ s.drop (s.takeWhile isB64Char).length := by
      rw [hdropEq]
      rcases List.mem_append.mp hmem with h1 | h2
      · have := List.mem_takeWhile_imp h1
        rw [hb64] at this
        cases this
      · exact h2
    have hall : (s.drop (s.takeWhile isB64Char).length).all (· == '=') = false := by
      cases hallc : (s.drop (s.takeWhile isB64Char).length).all (· == '=') with
      | false => rfl
      | true =>
        have := List.all_eq_true.mp hallc c hpad
        exact absurd (by simpa using this) heq
    have hb : b64decode (strippedB64Input b) =
        Except.error "Only base64 data is allowed" := by
      simp [b64decode, ← hs, hall]
    simp [load_image_from_base64, hb]

/-- C8 witness: one data-URL that decodes, and one bare input with a
character outside the base64 alphabet that is wrapped into the
SourceLoadError message, both via the amended theorem. -/
theorem load_image_from_base64_spec_witness :
    load_image_from_base64 "data:image/png;base64,QQ==" = Except.ok [65] ∧
    load_image_from_base64 "n@t-base64" =
      Except.error "Failed to decode base64 image data: Only base64 data is allowed" :=
  ⟨(load_image_from_base64_spec "data:image/png;base64,QQ==").1 [65] (by decide),
   (load_image_from_base64_spec "n@t-base64").2.2.2 '@' (by decide)
     (by decide) (by decide)⟩

/-- C9: a byte buffer whose megabyte size strictly exceeds the configured
maximum makes normalization fail with the size-kind validation error without
consulting the decoder; buffers at or below the limit never produce the
size-kind error. -/
theorem size_gate_spec
    (decodeImg decodeImg' : List Nat → Except String Bitmap)
    (imageData : List Nat) (maxSizeMb : ℚ) (resize resize' : Bool) :
    (validate_image_size imageData.length maxSizeMb = true →
      validate_and_process_image decodeImg imageData maxSizeMb resize =
        Except.error (ValidationFailure.size imageData.length maxSizeMb) ∧
      validate_and_process_image decodeImg imageData maxSizeMb resize =
        validate_and_process_image decodeImg' imageData maxSizeMb resize') ∧
    (validate_image_size imageData.length maxSizeMb = false →
      ∀ sb mm, validate_and_process_image decodeImg imageData maxSizeMb resize ≠
        Except.error (ValidationFailure.size sb mm)) ∧
    (validate_image_size imageData.length maxSizeMb = true ↔
      (imageData.length : ℚ) / (1024 * 1024) > maxSizeMb) := by
  refine ⟨?_, ?_, ?_⟩
  · intro h
    constructor <;> simp [validate_and_process_image, h]
  · intro h sb mm
    simp only [validate_and_process_image, h, Bool.false_eq_true, if_false]
    cases decodeImg imageData with
    | error msg => simp
    | ok img =>
      dsimp only
      split
      · simp
      · split <;> simp
  · simp [validate_image_size]

/-- C9 witness: a 3-byte buffer against a limit below 3 bytes fails with the
size error for any decoder; a 1-byte buffer within a 10 MB limit never
yields the size error. -/
theorem size_gate_spec_witness :
    validate_and_process_image (fun _ => Except.error "d") [0, 0, 0]
      (1 / 1048576) true =
      Except.error (ValidationFailure.size 3 (1 / 1048576)) ∧
    validate_and_process_image (fun _ => Except.error "d") [0] 10 true ≠
      Except.error (ValidationFailure.size 1 10) :=
  ⟨((size_gate_spec (fun _ => Except.error "d") (fun _ => Except.error "d")
      [0, 0, 0] (1 / 1048576) true true).1
      (by norm_num [validate_image_size])).1,
   (size_gate_spec (fun _ => Except.error "d") (fun _ => Except.error "d")
      [0] 10 true true).2.1 (by norm_num [validate_image_size]) 1 10⟩

/-- C6: a byte buffer carrying the RIFF+WEBP marker whose decoded bitmap has
no format tag is sniffed as WEBP — in the documented priority order — but is
then rejected by the format gate, because the supported-format set spells
the entry `WebP` while the sniffer (and PIL) produce `WEBP`; the code's own
error path lists WebP as supported while rejecting WEBP. -/
theorem sniffed_webp_rejected :
    validate_and_process_image (fun _ => Except.ok ⟨100, 100, none, "RGB"⟩)
      [0x52, 0x49, 0x46, 0x46, 0, 0, 0, 0, 0x57, 0x45, 0x42, 0x50] 10 true =
      Except.error (ValidationFailure.format "WEBP") ∧
    sniffFormat [0x52, 0x49, 0x46, 0x46, 0, 0, 0, 0, 0x57, 0x45, 0x42, 0x50] =
      "WEBP" ∧
    validate_image_format "WEBP" = false ∧
    supported_formats.contains "WebP" = true := by
  have hsize : validate_image_size 12 10 = false := by
    norm_num [validate_image_size]
  have hsniff : sniffFormat
      [0x52, 0x49, 0x46, 0x46, 0, 0, 0, 0, 0x57, 0x45, 0x42, 0x50] = "WEBP" := by
    decide
  have hfmt : validate_image_format "WEBP" = false := by decide
  refine ⟨?_, hsniff, hfmt, by decide⟩
  simp [validate_and_process_image, hsize, hsniff, hfmt]

/-- C10: every file path whose os-normalized form contains the substring
`..` anywhere — segment or not — is rejected by sanitize_file_path with the
validation error, without consulting the filesystem. -/
theorem sanitize_rejects_dotdot_substring (fs fs' : List Char → FsEntry)
    (p : List Char) (h : hasSub dotdot (normpath p) = true) :
    sanitize_file_path fs p =
      Except.error (PathError.validation ("Invalid file path: ".data ++ p)) ∧
    sanitize_file_path fs p = sanitize_file_path fs' p := by
  constructor <;> simp [sanitize_file_path, h]

/-- C10 witness: the single-component path `photo..jpg` — where `..` is not
a path segment — is rejected regardless of the filesystem. -/
theorem sanitize_rejects_dotdot_substring_witness :
    sanitize_file_path (fun _ => FsEntry.file [1]) "photo..jpg".data =
      Except.error (PathError.validation "Invalid file path: photo..jpg".data) :=
  (sanitize_rejects_dotdot_substring (fun _ => FsEntry.file [1])
    (fun _ => FsEntry.absent) "photo..jpg".data (by decide)).1

/-- C7: every file path in which a `..` segment remains after normalization
is rejected by the file loader with a SourceLoadError whose message comes
from the traversal check; the result does not depend on the filesystem, so
the rejection happens before any read. -/
theorem traversal_rejected_before_read (fs : List Char → FsEntry)
    (p : List Char) (h : dotdot ∈ normComps p) :
    load_image_from_file fs p =
      Except.error ("Failed to load image from file: ".data ++
        ("Invalid file path: ".data ++ p)) := by
  have hsub := hasSub_dotdot_normpath h
  simp [load_image_from_file, sanitize_file_path, hsub, PathError.msg]

/-- C7 witness: the path `../../etc/passwd` keeps its `..` segments after
normalization and is rejected on an arbitrary filesystem. -/
theorem traversal_rejected_before_read_witness :
    dotdot ∈ normComps "../../etc/passwd".data ∧
    load_image_from_file (fun _ => FsEntry.absent) "../../etc/passwd".data =
      Except.error "Failed to load image from file: Invalid file path: ../../etc/passwd".data :=
  ⟨by decide,
   (traversal_rejected_before_read (fun _ => FsEntry.absent)
      "../../etc/passwd".data (by decide)).trans (by decide)⟩

/-- C5 counterexample: a successfully decoded 2215-by-100 bitmap has its
larger dimension above 2048, yet auto-resize produces output dimensions
(2047, 92) — the larger output dimension is 2047, not exactly 2048, because
`2215 * (2048 / 2215)` computed in binary64 falls one unit below 2048 and
`int()` truncates. -/
theorem resize_claim_refuted :
    validate_and_process_image (fun _ => Except.ok ⟨2215, 100, some "PNG", "RGB"⟩)
      [0] 10 true =
      Except.ok (⟨2047, 92, none, "RGB"⟩,
        ⟨2047, 92, "PNG", "RGB", 1, true, some (2215, 100)⟩) ∧
    max 2047 92 ≠ 2048 := by
  have hsize : validate_image_size 1 10 = false := by
    norm_num [validate_image_size]
  have hdims : resizedDims 2215 100 = (2047, 92) := by decide
  constructor
  · simp [validate_and_process_image, hsize, validate_image_format,
      supported_formats, MAX_DIMENSION, hdims]
  · decide

/-- C5 (amended): for every successfully decoded bitmap whose larger
dimension exceeds 2048 and which passes the size and format gates,
auto-resize produces metadata with `resized = true`, the pre-resize
dimensions recorded in `original_size`, and output dimensions
`resizedDims w h` — the floats `int(w*ratio)`, `int(h*ratio)` with
`ratio = min(2048/w, 2048/h)` in binary64 — whose larger component equals
2048 except when the float product rounds one unit short (then 2047). -/
theorem resize_spec (decodeImg : List Nat → Except String Bitmap)
    (imageData : List Nat) (maxSizeMb : ℚ) (img : Bitmap) (fmt : String)
    (hdec : decodeImg imageData = Except.ok img)
    (hsize : validate_image_size imageData.length maxSizeMb = false)
    (hfmt0 : (match img.format with
              | some f => f
              | none => sniffFormat imageData) = fmt)
    (hfmt : validate_image_format fmt = true)
    (hbig : img.width > MAX_DIMENSION ∨ img.height > MAX_DIMENSION) :
    validate_and_process_image decodeImg imageData maxSizeMb true =
      Except.ok
        ({ width := (resizedDims img.width img.height).1,
           height := (resizedDims img.width img.height).2,
           format := none, mode := img.mode },
         { width := (resizedDims img.width img.height).1,
           height := (resizedDims img.width img.height).2,
           format := fmt, mode := img.mode, size_bytes := imageData.length,
           resized := true, original_size := some (img.width, img.height) }) := by
  simp [validate_and_process_image, hsize, hdec, hfmt0, hfmt, hbig]

/-- C5 witness: a 4096-by-2048 bitmap resizes to exactly (2048, 1024). -/
theorem resize_spec_witness :
    validate_and_process_image (fun _ => Except.ok ⟨4096, 2048, some "PNG", "RGB"⟩)
      [7] 10 true =
      Except.ok (⟨2048, 1024, none, "RGB"⟩,
        ⟨2048, 1024, "PNG", "RGB", 1, true, some (4096, 2048)⟩) := by
  have h := resize_spec (fun _ => Except.ok ⟨4096, 2048, some "PNG", "RGB"⟩)
    [7] 10 ⟨4096, 2048, some "PNG", "RGB"⟩ "PNG" rfl
    (by norm_num [validate_image_size]) rfl (by decide)
    (Or.inl (by decide))
  rw [h]
  have hdims : resizedDims 4096 2048 = (2048, 1024) := by decide
  simp only [hdims]
  rfl

/-- C3 counterexample: at the spec's own example inputs the claim fails
twice.  The heuristic extractor maps `I can see a dog, a ball, and a tree.`
to records named `dog`, `ball` and `and a tree` — not `tree`, because the
article regex requires the article at the start of the fragment and `and a
tree` starts with `and`.  And the text-extraction fallback on a failed parse
is a single whole-response record at confidence 0.8, not the heuristic
extractor. -/
theorem response_coercion_claim_refuted :
    extract_objects_from_text "I can see a dog, a ball, and a tree." ≠
      [⟨"dog", 7 / 10⟩, ⟨"ball", 7 / 10⟩, ⟨"tree", 7 / 10⟩] ∧
    extract_text_coerce (Except.error "Expecting value: line 1 column 1 (char 0)")
      "I can see a dog, a ball, and a tree." =
      [⟨"I can see a dog, a ball, and a tree.", 8 / 10⟩] ∧
    extract_text_coerce (Except.error "Expecting value: line 1 column 1 (char 0)")
      "I can see a dog, a ball, and a tree." ≠
      [⟨"dog", 7 / 10⟩, ⟨"ball", 7 / 10⟩, ⟨"tree", 7 / 10⟩] := by
  refine ⟨?_, rfl, ?_⟩
  · intro hco
    have h3 : ("and a tree" : String) = "tree" :=
      congrArg (fun l => (List.getD l 2 ⟨"", 0⟩).name) hco
    exact absurd h3 (by decide)
  · intro hco
    have h3 : (1 : Nat) = 3 := congrArg List.length hco
    exact absurd h3 (by decide)

/-- C3 (amended): response coercion is two-tier for object detection only.
For both kinds, a strict JSON parse yielding a list maps object elements
with the expected key to typed records (confidence defaulting to 0.8) and
bare strings to records at 0.8.  When the parse fails or yields a non-list,
object detection falls back to the heuristic extractor (boilerplate lead-in
stripped, split on comma/semicolon/period/newline, fragments shorter than 3
characters discarded, leading articles stripped, confidence 0.7, at most 10
items), so the spec's example text yields `dog`, `ball`, `and a tree` at
0.7; text extraction instead returns one whole-response record at 0.8. -/
theorem response_coercion_spec :
    (∀ elems resp, detect_objects_coerce (Except.ok (Json.arr elems)) resp =
      elems.filterMap objectFromItem) ∧
    (∀ elems resp, extract_text_coerce (Except.ok (Json.arr elems)) resp =
      elems.filterMap textFromItem) ∧
    (∀ err resp, detect_objects_coerce (Except.error err) resp =
      extract_objects_from_text resp) ∧
    (∀ j resp, (∀ elems, j ≠ Json.arr elems) →
      detect_objects_coerce (Except.ok j) resp = extract_objects_from_text resp) ∧
    (∀ err resp, extract_text_coerce (Except.error err) resp =
      [{ content := resp, confidence := 8 / 10 }]) ∧
    (∀ j resp, (∀ elems, j ≠ Json.arr elems) →
      extract_text_coerce (Except.ok j) resp =
        [{ content := resp, confidence := 8 / 10 }]) ∧
    (∀ fields name conf, jsonLookup fields "name" = some (Json.str name) →
      jsonLookup fields "confidence" = some (Json.num conf) →
      objectFromItem (Json.obj fields) = some ⟨name, conf⟩) ∧
    (∀ fields name, jsonLookup fields "name" = some (Json.str name) →
      jsonLookup fields "confidence" = none →
      objectFromItem (Json.obj fields) = some ⟨name, 8 / 10⟩) ∧
    (∀ s, objectFromItem (Json.str s) = some ⟨s, 8 / 10⟩) ∧
    (detect_objects_coerce (Except.ok (Json.arr
        [Json.obj [("name", Json.str "cat"), ("confidence", Json.num (9 / 10))]]))
      "irrelevant" = [⟨"cat", 9 / 10⟩]) ∧
    (extract_objects_from_text "I can see a dog, a ball, and a tree." =
      [⟨"dog", 7 / 10⟩, ⟨"ball", 7 / 10⟩, ⟨"and a tree", 7 / 10⟩]) ∧
    (∀ resp, (extract_objects_from_text resp).length ≤ 10) ∧
    (∀ resp o, o ∈ extract_objects_from_text resp → o.confidence = 7 / 10) := by
  refine ⟨fun _ _ => rfl, fun _ _ => rfl, fun _ _ => rfl, ?_, fun _ _ => rfl,
    ?_, ?_, ?_, fun _ => rfl, rfl, rfl, ?_, ?_⟩
  · intro j resp hne
    cases j with
    | arr elems => exact absurd rfl (hne elems)
    | null => rfl
    | bool b => rfl
    | num q => rfl
    | str s => rfl
    | obj fields => rfl
  · intro j resp hne
    cases j with
    | arr elems => exact absurd rfl (hne elems)
    | null => rfl
    | bool b => rfl
    | num q => rfl
    | str s => rfl
    | obj fields => rfl
  · intro fields name conf h1 h2
    simp [objectFromItem, h1, h2]
  · intro fields name h1 h2
    simp [objectFromItem, h1, h2]
  · intro resp
    exact le_trans (List.length_take_le 10 _) (le_refl 10)
  · intro resp o ho
    have ho2 := List.mem_of_mem_take ho
    obtain ⟨f0, hf0, heq⟩ := List.mem_filterMap.mp ho2
    unfold heuristicFragment at heq
    dsimp only at heq
    by_cases h1 : (stripWs f0).length > 2
    · rw [if_pos h1] at heq
      by_cases h2 : (stripArticle (stripWs f0)).length > 0
      · rw [if_pos h2] at heq
        cases heq
        rfl
      · rw [if_neg h2] at heq
        cases heq
    · rw [if_neg h1] at heq
      cases heq

/-- C3 witness: the structured tier at a concrete parsed object with an
explicit confidence, via the amended theorem. -/
theorem response_coercion_spec_witness :
    objectFromItem (Json.obj
      [("name", Json.str "cat"), ("confidence", Json.num (9 / 10))]) =
      some ⟨"cat", 9 / 10⟩ :=
  response_coercion_spec.2.2.2.2.2.2.1
    [("name", Json.str "cat"), ("confidence", Json.num (9 / 10))]
    "cat" (9 / 10) rfl rfl

/-- The spec's per-image envelope invariant:
`success=true` iff `analysis` is present iff `error` is absent. -/
def envelopeWellFormed (r : ProcessingResult) : Prop :=
  (r.success = true ↔ r.analysis.isSome = true) ∧
  (r.analysis.isSome = true ↔ r.error = none)

/-- C2 counterexample: a request with the invalid provider string `bogus`
(all other stages healthy) makes the tool raise an uncaught ValueError —
the except handler re-evaluates `APIProvider("bogus")` and raises again —
so the caller receives no ProcessingEnvelope at all, refuting "the caller
receives exactly one ProcessingEnvelope regardless of which stage fails". -/
theorem process_image_claim_refuted :
    server_process_image (some "bogus") "openai" (Except.ok ()) (Except.ok ())
      (Except.ok
        { success := false, provider := "openai", analysis := none,
          error := some "unused", request_id := "r1", timestamp := 0 })
      "req" 0 =
      Except.error "'bogus' is not a valid APIProvider" := rfl

/-- C2 (amended): the envelopes built by BaseImageClient.process_image and
analyze_with_custom_prompt always satisfy `success=true` iff `analysis`
present iff `error` absent; whenever the effective provider string (the
argument, or the config default when absent or empty) is a valid
APIProvider value, the process_image tool returns exactly one such
well-formed envelope no matter which later stage fails; but when the
provider string is invalid, the except handler itself re-raises the
ValueError and the caller receives no envelope. -/
theorem process_image_envelope_invariant
    (apiProviderArg : Option String) (defaultProvider : String)
    (analysisAndKey loadAndValidate : Except String Unit)
    (provider mdFormat requestIdC requestIdS : String)
    (mdWidth mdHeight mdSizeBytes : Nat)
    (analyzeOutcome : Except String ImageAnalysis)
    (callOutcome : Except String String)
    (procTime tsC tsS : ℚ) :
    envelopeWellFormed (base_process_image provider mdWidth mdHeight mdFormat
      mdSizeBytes analyzeOutcome requestIdC procTime tsC) ∧
    envelopeWellFormed (analyze_with_custom_prompt provider mdWidth mdHeight
      mdFormat mdSizeBytes callOutcome requestIdC procTime tsC) ∧
    (validProviders.contains (pyOr apiProviderArg defaultProvider) = true →
      (∃ r, server_process_image apiProviderArg defaultProvider analysisAndKey
          loadAndValidate
          (Except.ok (base_process_image provider mdWidth mdHeight mdFormat
            mdSizeBytes analyzeOutcome requestIdC procTime tsC))
          requestIdS tsS = Except.ok r ∧ envelopeWellFormed r) ∧
      (∃ r, server_process_image apiProviderArg defaultProvider analysisAndKey
          loadAndValidate
          (Except.ok (analyze_with_custom_prompt provider mdWidth mdHeight
            mdFormat mdSizeBytes callOutcome requestIdC procTime tsC))
          requestIdS tsS = Except.ok r ∧ envelopeWellFormed r) ∧
      (∀ msg, ∃ r, server_process_image apiProviderArg defaultProvider
          analysisAndKey loadAndValidate (Except.error msg)
          requestIdS tsS = Except.ok r ∧ envelopeWellFormed r)) ∧
    (validProviders.contains (pyOr apiProviderArg defaultProvider) = false →
      ∀ clientOutcome : Except String ProcessingResult,
        server_process_image apiProviderArg defaultProvider analysisAndKey
          loadAndValidate clientOutcome requestIdS tsS =
        Except.error ("'" ++ pyOr apiProviderArg defaultProvider ++
          "' is not a valid APIProvider")) := by
  have hbase : envelopeWellFormed (base_process_image provider mdWidth mdHeight
      mdFormat mdSizeBytes analyzeOutcome requestIdC procTime tsC) := by
    cases analyzeOutcome <;>
      simp [envelopeWellFormed, base_process_image]
  have hcustom : envelopeWellFormed (analyze_with_custom_prompt provider
      mdWidth mdHeight mdFormat mdSizeBytes callOutcome requestIdC procTime tsC) := by
    cases callOutcome <;>
      simp [envelopeWellFormed, analyze_with_custom_prompt]
  have herrEnv : ∀ msg,
      envelopeWellFormed
        { success := false, provider := pyOr apiProviderArg defaultProvider,
          analysis := none, error := some msg, request_id := requestIdS,
          timestamp := tsS } := by
    intro msg
    simp [envelopeWellFormed]
  refine ⟨hbase, hcustom, ?_, ?_⟩
  · intro hv
    have hmem : pyOr apiProviderArg defaultProvider ∈ validProviders := by
      simpa using hv
    have hparse : apiProviderOfString (pyOr apiProviderArg defaultProvider) =
        Except.ok (pyOr apiProviderArg defaultProvider) := by
      simp [apiProviderOfString, hmem]
    have hhandler : ∀ msg, exceptHandler apiProviderArg defaultProvider msg
        requestIdS tsS =
        Except.ok
          { success := false, provider := pyOr apiProviderArg defaultProvider,
            analysis := none, error := some msg, request_id := requestIdS,
            timestamp := tsS } := by
      intro msg
      simp [exceptHandler, hparse]
    refine ⟨?_, ?_, ?_⟩
    · cases hak : analysisAndKey with
      | error e =>
        refine ⟨_, ?_, herrEnv ("Unexpected error: " ++ e)⟩
        simp [server_process_image, hparse, hhandler]
      | ok u =>
        cases hlv : loadAndValidate with
        | error e =>
          refine ⟨_, ?_, herrEnv e⟩
          simp [server_process_image, hparse, hhandler]
        | ok u2 =>
          exact ⟨_, by simp [server_process_image, hparse], hbase⟩
    · cases hak : analysisAndKey with
      | error e =>
        refine ⟨_, ?_, herrEnv ("Unexpected error: " ++ e)⟩
        simp [server_process_image, hparse, hhandler]
      | ok u =>
        cases hlv : loadAndValidate with
        | error e =>
          refine ⟨_, ?_, herrEnv e⟩
          simp [server_process_image, hparse, hhandler]
        | ok u2 =>
          exact ⟨_, by simp [server_process_image, hparse], hcustom⟩
    · intro msg
      cases hak : analysisAndKey with
      | error e =>
        refine ⟨_, ?_, herrEnv ("Unexpected error: " ++ e)⟩
        simp [server_process_image, hparse, hhandler]
      | ok u =>
        cases hlv : loadAndValidate with
        | error e =>
          refine ⟨_, ?_, herrEnv e⟩
          simp [server_process_image, hparse, hhandler]
        | ok u2 =>
          refine ⟨_, ?_, herrEnv ("Unexpected error: " ++ msg)⟩
          simp [server_process_image, hparse, hhandler]
  · intro hv clientOutcome
    have hmem : pyOr apiProviderArg defaultProvider ∉ validProviders := by
      simpa using hv
    have hparse : apiProviderOfString (pyOr apiProviderArg defaultProvider) =
        Except.error ("'" ++ pyOr apiProviderArg defaultProvider ++
          "' is not a valid APIProvider") := by
      simp [apiProviderOfString, hmem]
    simp [server_process_image, hparse, exceptHandler]

/-- C2 witness: with the valid provider string `openai`, a failing analysis
outcome still reaches the caller as exactly one well-formed envelope. -/
theorem process_image_envelope_invariant_witness :
    ∃ r, server_process_image (some "openai") "openai" (Except.ok ())
      (Except.ok ())
      (Except.ok (base_process_image "openai" 640 480 "PNG" 9000
        (Except.error "OpenAI rate limit exceeded") "req-1" 2 10))
      "req-2" 11 = Except.ok r ∧ envelopeWellFormed r :=
  ((process_image_envelope_invariant (some "openai") "openai" (Except.ok ())
    (Except.ok ()) "openai" "PNG" "req-1" "req-2" 640 480 9000
    (Except.error "OpenAI rate limit exceeded") (Except.ok "unused")
    2 10 11).2.2.1 rfl).1

theorem filter_length_partition (p : ProcessingResult → Bool) :
    ∀ l : List ProcessingResult,
      (l.filter p).length + (l.filter (fun r => !p r)).length = l.length := by
  intro l
  induction l with
  | nil => rfl
  | cons r rest ih =>
    cases hp : p r <;> simp [List.filter_cons, hp, ← ih] <;> omega

/-- Closed form of the batch loop: it appends exactly one envelope per item
(`batchStep`) and the two counters advance by the success/failure partition
of those envelopes. -/
theorem batchLoop_spec (provider : String)
    (oracle : Nat → String → Except String ProcessingResult)
    (errId : Nat → String) (errTs : Nat → ℚ) :
    ∀ (l : List (Nat × String)) (acc : List ProcessingResult) (succ fail : Nat),
      batchLoop provider oracle errId errTs l acc succ fail =
        (acc ++ l.map (fun p => batchStep provider oracle errId errTs p.1 p.2),
         succ + ((l.map (fun p => batchStep provider oracle errId errTs p.1 p.2)).filter
           (fun r => r.success)).length,
         fail + ((l.map (fun p => batchStep provider oracle errId errTs p.1 p.2)).filter
           (fun r => !r.success)).length) := by
  intro l
  induction l with
  | nil => intro acc succ fail; simp [batchLoop]
  | cons p rest ih =>
    intro acc succ fail
    obtain ⟨i, src⟩ := p
    have hstep : batchStep provider oracle errId errTs i src =
        match oracle i src with
        | Except.ok r => r
        | Except.error e => batchErrorEnvelope provider e (errId i) (errTs i) := rfl
    cases ho : oracle i src with
    | ok r =>
      cases hs : r.success with
      | true =>
        simp only [batchLoop, ho, hs, if_true, ih, List.map_cons, hstep,
          List.filter_cons, List.append_assoc, List.singleton_append,
          List.length_cons, Prod.mk.injEq]
        refine ⟨trivial, ?_, ?_⟩
        all_goals try simp [hs]
        all_goals omega
      | false =>
        simp only [batchLoop, ho, hs, Bool.false_eq_true, if_false, ih,
          List.map_cons, hstep, List.filter_cons, List.append_assoc,
          List.singleton_append, List.length_cons, Prod.mk.injEq]
        refine ⟨trivial, ?_, ?_⟩
        all_goals try simp [hs]
        all_goals omega
    | error e =>
      have hsucc : (batchErrorEnvelope provider e (errId i) (errTs i)).success
          = false := rfl
      simp only [batchLoop, ho, ih, List.map_cons, hstep, List.filter_cons,
        List.append_assoc, List.singleton_append, List.length_cons,
        Prod.mk.injEq]
      refine ⟨trivial, ?_, ?_⟩
      all_goals try simp [hsucc]
      all_goals omega

/-- C1 counterexample: when the up-front provider/API-key resolution fails,
the outer handler returns an envelope whose results list is empty even
though the input batch has one source — the results list does not have
length N. -/
theorem analyze_image_batch_claim_refuted :
    (analyze_image_batch
      (Except.error "No API key available for provider: openai")
      (fun _ _ => Except.error "unused") (fun _ => "id") (fun _ => 0)
      "openai" ["img.png"] 0).results.length ≠ ["img.png"].length := by
  decide

/-- C1 (amended): when the up-front provider/API-key resolution succeeds,
the batch envelope has `total_images = N`, a results list of length exactly
N whose i-th entry is the envelope of `sources[i]` (so one item's outcome
never affects another's slot, and a failure never aborts later items), and
counters satisfying `successful + failed = N`; when the up-front resolution
fails, the envelope instead has empty results, `successful = 0` and
`failed = N`. -/
theorem analyze_image_batch_spec
    (oracle : Nat → String → Except String ProcessingResult)
    (errId : Nat → String) (errTs : Nat → ℚ) (provider : String)
    (sources : List String) (elapsed : ℚ) :
    ((analyze_image_batch (Except.ok ()) oracle errId errTs provider sources
      elapsed).total_images = sources.length) ∧
    ((analyze_image_batch (Except.ok ()) oracle errId errTs provider sources
      elapsed).results.length = sources.length) ∧
    ((analyze_image_batch (Except.ok ()) oracle errId errTs provider sources
        elapsed).successful +
      (analyze_image_batch (Except.ok ()) oracle errId errTs provider sources
        elapsed).failed = sources.length) ∧
    (∀ i : Nat,
      (analyze_image_batch (Except.ok ()) oracle errId errTs provider sources
        elapsed).results[i]? =
      (sources[i]?).map (fun src => batchStep provider oracle errId errTs i src)) ∧
    (∀ e,
      (analyze_image_batch (Except.error e) oracle errId errTs provider sources
        elapsed).results = [] ∧
      (analyze_image_batch (Except.error e) oracle errId errTs provider sources
        elapsed).successful = 0 ∧
      (analyze_image_batch (Except.error e) oracle errId errTs provider sources
        elapsed).failed = sources.length) := by
  have hloop := batchLoop_spec provider oracle errId errTs sources.enum [] 0 0
  have hb : analyze_image_batch (Except.ok ()) oracle errId errTs provider
      sources elapsed =
      { total_images := sources.length,
        successful := ((sources.enum.map (fun p =>
          batchStep provider oracle errId errTs p.1 p.2)).filter
            (fun r => r.success)).length,
        failed := ((sources.enum.map (fun p =>
          batchStep provider oracle errId errTs p.1 p.2)).filter
            (fun r => !r.success)).length,
        results := sources.enum.map (fun p =>
          batchStep provider oracle errId errTs p.1 p.2),
        processing_time := elapsed } := by
    simp [analyze_image_batch, hloop]
  refine ⟨by rw [hb], ?_, ?_, ?_, ?_⟩
  · rw [hb]
    simp [List.enum_length]
  · rw [hb]
    exact filter_length_partition (fun r => r.success) _ |>.trans
      (by simp [List.enum_length])
  · intro i
    rw [hb]
    simp only [List.getElem?_map, List.getElem?_enum]
    cases hx : sources[i]? <;> simp [hx]

  · intro e
    refine ⟨rfl, rfl, rfl⟩

/-- C1 witness: a two-item batch in which the first item succeeds and the
second raises still yields two result slots and counters summing to two. -/
theorem analyze_image_batch_spec_witness :
    ((analyze_image_batch (Except.ok ())
      (fun i _ => if i = 0
        then Except.ok (base_process_image "openai" 1 1 "PNG" 1
          (Except.ok ⟨none, [], [], none⟩) "u0" 0 0)
        else Except.error "boom")
      (fun _ => "u") (fun _ => 0) "openai" ["a.png", "b.png"] 0).successful +
     (analyze_image_batch (Except.ok ())
      (fun i _ => if i = 0
        then Except.ok (base_process_image "openai" 1 1 "PNG" 1
          (Except.ok ⟨none, [], [], none⟩) "u0" 0 0)
        else Except.error "boom")
      (fun _ => "u") (fun _ => 0) "openai" ["a.png", "b.png"] 0).failed) = 2 :=
  (analyze_image_batch_spec
    (fun i _ => if i = 0
      then Except.ok (base_process_image "openai" 1 1 "PNG" 1
        (Except.ok ⟨none, [], [], none⟩) "u0" 0 0)
      else Except.error "boom")
    (fun _ => "u") (fun _ => 0) "openai" ["a.png", "b.png"] 0).2.2.1

end MCPImage
